import Mathlib

/-!
# trireme-example: identity bootstrap and secret-strategy selection

A shallow embedding of the four Go sources

* `constructors/constructors.go` (`TriremeWithPKI`, `TriremeWithPSK`,
  `HybridTriremeWithCompactPKI`, `TriremeWithCompactPKI`, `createTxtToken`),
* `triremecli/cli.go` (`processDaemon`),
* `extractors/swarm.go` (`SwarmExtractor`),
* `cnitest/cni.go` (`main`),

Every Go function becomes a Lean function into `Run α`: the list of calls the
function makes to its collaborators (file reads, logging, the token signer,
the configurator, the Docker API, the lifecycle of the instance) together with
the way the function ends (a returned value, a fatal exit through
`zap.L().Fatal`, a Go runtime panic, or a wait that never ends).  Everything
outside the repository (the file system, `encoding/pem`, the `crypto` and
`pkiverifier` packages, the configurator, `trireme.New`, the Docker client) is
a field of `World`, so every theorem holds for every behaviour of those
collaborators.
-/

namespace Trireme

/-! ## Values -/

/-- Go `[]byte`. -/
abbrev Bytes := List Nat

/-- Go `[]byte(s)`: the bytes of the string `s` (its UTF-8 encoding). -/
def toBytes (s : String) : Bytes := s.toUTF8.data.toList.map UInt8.toNat

/-- Levels of the `zap` logger used by the sources. -/
inductive Level where
  | debug
  | info
  | fatal
  deriving DecidableEq, Repr

/-- Value of `x509.Certificate.PublicKey` (an `interface{}` in Go): either an
`*ecdsa.PublicKey` or a key of some other dynamic type. -/
inductive PubKey where
  | ecdsa (k : Nat)
  | other (algorithm : String)
  deriving DecidableEq, Repr

/-- The `*x509.Certificate` returned by `crypto.LoadCertificate`. -/
structure Certificate where
  PublicKey : PubKey
  Raw : Bytes
  deriving DecidableEq, Repr

/-- The `*ecdsa.PrivateKey` returned by `crypto.LoadEllipticCurveKey`. -/
structure PrivateKey where
  d : Nat
  deriving DecidableEq, Repr

/-- A `dockermonitor.DockerMetadataExtractor` (a function value in Go, kept
abstract). -/
structure DockerMetadataExtractor where
  id : Nat
  deriving DecidableEq, Repr

/-- The result of `policyexample.NewCustomPolicyResolver`: the resolver is
determined by the arguments it was built from. -/
structure CustomPolicyResolver where
  networks : List String
  policyFile : Option String
  deriving DecidableEq, Repr

/-- Go `policyexample.NewCustomPolicyResolver(networks)` as `constructors.go`
calls it. -/
def NewCustomPolicyResolver (networks : List String) : CustomPolicyResolver :=
  { networks := networks, policyFile := none }

/-- The secret implementations of `enforcer/utils/secrets` that the sources
construct. -/
inductive Secrets where
  | psk (key : Bytes)
  | compactPKI (keyPEM certPEM caPEM token : Bytes)
  deriving DecidableEq, Repr

/-- One call into package `configurator`, with the arguments the sources pass
(the `nil` event collector and the `false` sync flag are constants of every call
site and are left out). -/
inductive ConfiguratorCall where
  | NewPKITriremeWithDockerMonitor (serverID : String) (resolver : CustomPolicyResolver)
      (processor : Option Nat) (keyPEM certPEM caCertPEM : Bytes)
      (extractor : DockerMetadataExtractor) (remoteEnforcer killContainerError : Bool)
  | NewPSKTriremeWithDockerMonitor (serverID : String) (resolver : CustomPolicyResolver)
      (processor : Option Nat) (key : Bytes)
      (extractor : DockerMetadataExtractor) (remoteEnforcer killContainerError : Bool)
  | NewHybridCompactPKIWithDocker (serverID : String) (networks : List String)
      (resolver : CustomPolicyResolver) (processor : Option Nat)
      (keyPEM certPEM caCertPEM token : Bytes)
      (extractor : DockerMetadataExtractor) (remoteEnforcer killContainerError : Bool)
  | NewCompactPKIWithDocker (serverID : String) (networks : List String)
      (resolver : CustomPolicyResolver) (processor : Option Nat)
      (keyPEM certPEM caCertPEM token : Bytes)
      (extractor : DockerMetadataExtractor) (remoteEnforcer killContainerError : Bool)
  deriving DecidableEq, Repr

/-- Whether a configurator call hands a compact token to the configurator. -/
def ConfiguratorCall.token? : ConfiguratorCall → Option Bytes
  | .NewPKITriremeWithDockerMonitor .. => none
  | .NewPSKTriremeWithDockerMonitor .. => none
  | .NewHybridCompactPKIWithDocker _ _ _ _ _ _ _ token _ _ _ => some token
  | .NewCompactPKIWithDocker _ _ _ _ _ _ _ token _ _ _ => some token

/-- A `trireme.Trireme` of the old library, as the configurator hands it back. -/
structure TriremeHandle where
  id : Nat
  deriving DecidableEq, Repr

/-- A `monitor.Monitor`. -/
structure Monitor where
  id : Nat
  deriving DecidableEq, Repr

/-- What a configurator call hands back: the instance, its monitor(s) and, for
`NewPKITriremeWithDockerMonitor`, the public-key store `p`, of which only the
result of `p.PublicKeyAdd` is observed (`none` is a nil error). -/
structure Configured where
  t : TriremeHandle
  m : Monitor
  m2 : Monitor
  PublicKeyAdd : String → Bytes → Option String

/-- Sub-options of the Docker monitor. -/
inductive DockerMonitorOption where
  | extractorSwarm
  | preset (id : Nat)
  deriving DecidableEq, Repr

/-- Go `trireme.MonitorOption`. -/
inductive MonitorOption where
  | docker (subOptions : List DockerMonitorOption)
  | linuxProcess
  deriving DecidableEq, Repr

/-- Go `trireme.Option`. -/
inductive TriremeOption where
  | secret (s : Secrets)
  | monitors (ms : List MonitorOption)
  | policyResolver (r : CustomPolicyResolver)
  deriving DecidableEq, Repr

/-- A `trireme.Trireme` of `trireme-lib`: `Start` and `Stop` each report an
error or nil (`none`). -/
structure Instance where
  Start : Option String
  Stop : Option String
  deriving DecidableEq, Repr

/-- A Go `map[string]string`, as the list of its entries. -/
abbrev StringMap := List (String × String)

/-- Go `swarm.Service`, of which only `Spec.Labels` is read. -/
structure ServiceSpec where
  Labels : StringMap
  deriving DecidableEq, Repr

/-- Go `swarm.Service`. -/
structure Service where
  Spec : ServiceSpec
  deriving DecidableEq, Repr

/-- The Docker client: `ServiceInspectWithRaw` by service id. -/
structure DockerClient where
  ServiceInspectWithRaw : String → Except String Service

/-- Go `container.Config`, of which `Image` and `Labels` are read. -/
structure ContainerConfig where
  Image : String
  Labels : StringMap
  deriving DecidableEq, Repr

/-- Go `types.ContainerState`, of which `Pid` is read. -/
structure ContainerState where
  Pid : Int
  deriving DecidableEq, Repr

/-- Go `types.ContainerJSONBase`, of which `Name` and `State` are read. `State`
is a pointer: `none` is nil. -/
structure ContainerJSONBase where
  Name : String
  State : Option ContainerState
  deriving DecidableEq, Repr

/-- Go `types.ContainerJSON`. The embedded `*ContainerJSONBase` (through which
`info.Name` and `info.State` are reached) and `Config` are pointers: `none` is
nil. -/
structure ContainerJSON where
  ContainerJSONBase : Option ContainerJSONBase
  Config : Option ContainerConfig
  deriving DecidableEq, Repr

/-- Go `policy.TagStore`: the key/value pairs in the order they were added. -/
structure TagStore where
  Tags : List (String × String)
  deriving DecidableEq, Repr

/-- Go `(*TagStore).AppendKeyValue`. -/
def TagStore.AppendKeyValue (t : TagStore) (k v : String) : TagStore :=
  { Tags := t.Tags ++ [(k, v)] }

/-- Go `policy.PURuntime`, as `policy.NewPURuntime` fills it. -/
structure PURuntime where
  name : String
  pid : Int
  nsPath : String
  tags : TagStore
  ips : StringMap
  puType : String
  deriving DecidableEq, Repr

/-- Go `policy.NewPURuntime(name, pid, nsPath, tags, ips, puType, nil)`. -/
def NewPURuntime (name : String) (pid : Int) (nsPath : String) (tags : TagStore)
    (ips : StringMap) (puType : String) : PURuntime :=
  { name := name, pid := pid, nsPath := nsPath, tags := tags, ips := ips, puType := puType }

/-- The `*rpcmonitor.RPCMonitor` of `cnitest`: what `RegisterProcessor`, `Start`
and `Stop` report (`none` is a nil error). -/
structure RPCMonitor where
  RegisterProcessor : Option String
  Start : Option String
  Stop : Option String
  deriving DecidableEq, Repr

/-- The `config.Configuration` fields that `processDaemon` reads. -/
structure Configuration where
  AuthType : String
  PSK : String
  KeyPath : String
  CertPath : String
  CaCertPath : String
  CaKeyPath : String
  Docker : Bool
  Swarm : Bool
  LinuxProcesses : Bool
  ParsedTriremeNetworks : List String
  policyFile : String
  deriving DecidableEq, Repr

/-! ## Calls and outcomes -/

/-- The calls to collaborators that the sources make. -/
inductive Event where
  | log (level : Level) (msg : String) (fields : List String)
  | println (s : String)
  | readFile (path : String)
  | createToken (caPub : Nat) (caKey : PrivateKey) (validity : Int) (cert : Certificate)
  | configurator (call : ConfiguratorCall)
  | publicKeyAdd (name : String) (cert : Bytes)
  | newPSKSecrets (key : Bytes)
  | optionSecret (s : Secrets)
  | new (name : String) (options : List TriremeOption)
  | start (result : Option String)
  | stop (result : Option String)
  | signalNotify (signals : List String)
  | waitSignal
  | newDockerClient
  | serviceInspect (serviceID : String)
  | newRPCMonitor
  | registerProcessor
  deriving DecidableEq, Repr

/-- How a Go function ends. -/
inductive Outcome (α : Type) where
  | returned (a : α)
  | fatal (msg : String)
  | panicked (msg : String)
  | blocked
  deriving DecidableEq, Repr

/-- A run of a Go function: the calls it made, in order, and how it ended. -/
structure Run (α : Type) where
  trace : List Event
  outcome : Outcome α

/-- Sequencing: the second part runs only when the first one returned. -/
def Run.bind {α β : Type} (x : Run α) (f : α → Run β) : Run β :=
  match x.outcome with
  | .returned a => { trace := x.trace ++ (f a).trace, outcome := (f a).outcome }
  | .fatal msg => { trace := x.trace, outcome := .fatal msg }
  | .panicked msg => { trace := x.trace, outcome := .panicked msg }
  | .blocked => { trace := x.trace, outcome := .blocked }

instance : Monad Run where
  pure a := { trace := [], outcome := .returned a }
  bind := Run.bind

/-- One call with no result of interest. -/
def emit (e : Event) : Run Unit := { trace := [e], outcome := .returned () }

/-- Go `zap.L().Fatal(msg, fields...)`: writes the entry, then `os.Exit(1)`. -/
def Fatal {α : Type} (msg : String) (fields : List String) : Run α :=
  { trace := [.log .fatal msg fields], outcome := .fatal msg }

/-- A Go runtime panic. -/
def goPanic {α : Type} (msg : String) : Run α :=
  { trace := [], outcome := .panicked msg }

/-- Go `zap.L().Info(msg)`. -/
def Info (msg : String) : Run Unit := emit (.log .info msg [])

/-- Go `zap.L().Debug(msg)`. -/
def Debug (msg : String) : Run Unit := emit (.log .debug msg [])

/-! ## The collaborators -/

/-- Everything outside the repository that the sources call. -/
structure World where
  /-- Go `ioutil.ReadFile`. -/
  readFile : String → Except String Bytes
  /-- Go `pem.Decode`: the first block (`none` is the nil block). -/
  pemDecode : Bytes → Option Bytes
  /-- Go `crypto.LoadEllipticCurveKey`. -/
  LoadEllipticCurveKey : Bytes → Except String PrivateKey
  /-- Go `crypto.LoadCertificate`. -/
  LoadCertificate : Bytes → Except String Certificate
  /-- Go `pkiverifier.NewConfig(pub, priv, validity).CreateTokenFromCertificate(cert)`. -/
  CreateTokenFromCertificate : Nat → PrivateKey → Int → Certificate → Except String Bytes
  /-- Package `configurator`. -/
  configure : ConfiguratorCall → Configured
  /-- The package variable `ExternalProcessor`. -/
  ExternalProcessor : Option Nat
  /-- Go `trireme.New`: `none` is a nil instance. -/
  New : String → List TriremeOption → Option Instance
  /-- The package variable `triremeNodeName`. -/
  triremeNodeName : String
  /-- The package variable `dockerOptions`. -/
  dockerOptions : List DockerMonitorOption
  /-- Whether a signal is ever delivered on the channel `c`. -/
  signalDelivered : Bool
  /-- Go `dockerClient.NewClient` with the constant arguments of `SwarmExtractor`. -/
  NewClient : Except String DockerClient
  /-- The order in which a `range` over a map visits the entries of the map. -/
  rangeOrder : List (String × String) → List (String × String)
  /-- Go `rpcmonitor.NewRPCMonitor` with the constant arguments of `main`. -/
  NewRPCMonitor : Except String RPCMonitor

/-- Go `ioutil.ReadFile(path)`. -/
def ReadFile (w : World) (path : String) : Run (Except String Bytes) :=
  { trace := [.readFile path], outcome := .returned (w.readFile path) }

/-- Go `*extractor`: dereferencing a nil pointer panics. -/
def deref {α : Type} (p : Option α) : Run α :=
  match p with
  | some a => pure a
  | none => goPanic "invalid memory address or nil pointer dereference"

/-! ## constructors/constructors.go -/

/-- Go `createTxtToken`: `.error e` is the return `nil, err`. -/
def createTxtToken (w : World) (caKeyPEM caPEM certPEM : Bytes) : Run (Except String Bytes) := do
  match w.LoadEllipticCurveKey caKeyPEM with
  | .error err => return .error err
  | .ok caKey =>
    match w.LoadCertificate caPEM with
    | .error err => return .error err
    | .ok caCert =>
      match w.LoadCertificate certPEM with
      | .error err => return .error err
      | .ok clientCert =>
        -- `caCert.PublicKey.(*ecdsa.PublicKey)`: a single-value type assertion
        match caCert.PublicKey with
        | .other _ =>
          goPanic "interface conversion: interface is not *ecdsa.PublicKey"
        | .ecdsa pub =>
          emit (.createToken pub caKey (-1) clientCert)
          match w.CreateTokenFromCertificate pub caKey (-1) clientCert with
          | .error err => return .error err
          | .ok token => return .ok token

/-- Go `TriremeWithPKI`. -/
def TriremeWithPKI (w : World) (keyFile certFile caCertFile : String) (networks : List String)
    (extractor : Option DockerMetadataExtractor) (remoteEnforcer killContainerError : Bool) :
    Run (TriremeHandle × Monitor) := do
  -- Load client cert
  let certPEM ← match ← ReadFile w certFile with
    | .error err => Fatal err []
    | .ok b => pure b
  -- Load key
  let keyPEM ← match ← ReadFile w keyFile with
    | .error err => Fatal err []
    | .ok b => pure b
  match w.pemDecode keyPEM with
  | none => Fatal "Failed to read key PEM" []
  | some _ => pure ()
  -- Load CA cert
  let caCertPEM ← match ← ReadFile w caCertFile with
    | .error err => Fatal err []
    | .ok b => pure b
  let policyEngine := NewCustomPolicyResolver networks
  let ex ← deref extractor
  let call := ConfiguratorCall.NewPKITriremeWithDockerMonitor "Server1" policyEngine
    w.ExternalProcessor keyPEM certPEM caCertPEM ex remoteEnforcer killContainerError
  emit (.configurator call)
  let r := w.configure call
  emit (.publicKeyAdd "Server1" certPEM)
  match r.PublicKeyAdd "Server1" certPEM with
  | some err => Fatal err []
  | none => pure ()
  return (r.t, r.m)

/-- Go `TriremeWithPSK`. -/
def TriremeWithPSK (w : World) (networks : List String)
    (extractor : Option DockerMetadataExtractor) (remoteEnforcer killContainerError : Bool) :
    Run (TriremeHandle × Monitor) := do
  let policyEngine := NewCustomPolicyResolver networks
  let ex ← deref extractor
  let call := ConfiguratorCall.NewPSKTriremeWithDockerMonitor "Server1" policyEngine
    w.ExternalProcessor (toBytes "THIS IS A BAD PASSWORD") ex remoteEnforcer killContainerError
  emit (.configurator call)
  let r := w.configure call
  return (r.t, r.m)

/-- Go `HybridTriremeWithCompactPKI`. -/
def HybridTriremeWithCompactPKI (w : World) (keyFile certFile caCertFile caKeyFile : String)
    (networks : List String) (extractor : Option DockerMetadataExtractor)
    (remoteEnforcer killContainerError : Bool) :
    Run (TriremeHandle × Monitor × Monitor) := do
  -- Load client cert
  let certPEM ← match ← ReadFile w certFile with
    | .error err => Fatal err []
    | .ok b => pure b
  -- Load key
  let keyPEM ← match ← ReadFile w keyFile with
    | .error err => Fatal err []
    | .ok b => pure b
  match w.pemDecode keyPEM with
  | none => Fatal "Failed to read key PEM" []
  | some _ => pure ()
  -- Load CA cert
  let caCertPEM ← match ← ReadFile w caCertFile with
    | .error err => Fatal err []
    | .ok b => pure b
  let caKeyPEM ← match ← ReadFile w caKeyFile with
    | .error err => Fatal err []
    | .ok b => pure b
  let token ← match ← createTxtToken w caKeyPEM caCertPEM certPEM with
    | .error err => Fatal err []
    | .ok t => pure t
  let policyEngine := NewCustomPolicyResolver networks
  let ex ← deref extractor
  let call := ConfiguratorCall.NewHybridCompactPKIWithDocker "Server1" networks policyEngine
    w.ExternalProcessor keyPEM certPEM caCertPEM token ex remoteEnforcer killContainerError
  emit (.configurator call)
  let r := w.configure call
  return (r.t, r.m, r.m2)

/-- Go `TriremeWithCompactPKI`. -/
def TriremeWithCompactPKI (w : World) (keyFile certFile caCertFile caKeyFile : String)
    (networks : List String) (extractor : Option DockerMetadataExtractor)
    (remoteEnforcer killContainerError : Bool) :
    Run (TriremeHandle × Monitor) := do
  -- Load client cert
  let certPEM ← match ← ReadFile w certFile with
    | .error err => Fatal err []
    | .ok b => pure b
  -- Load key
  let keyPEM ← match ← ReadFile w keyFile with
    | .error err => Fatal err []
    | .ok b => pure b
  match w.pemDecode keyPEM with
  | none => Fatal "Failed to read key PEM" []
  | some _ => pure ()
  -- Load CA cert
  let caCertPEM ← match ← ReadFile w caCertFile with
    | .error err => Fatal err []
    | .ok b => pure b
  let caKeyPEM ← match ← ReadFile w caKeyFile with
    | .error err => Fatal err []
    | .ok b => pure b
  let token ← match ← createTxtToken w caKeyPEM caCertPEM certPEM with
    | .error err => Fatal err []
    | .ok t => pure t
  let policyEngine := NewCustomPolicyResolver networks
  let ex ← deref extractor
  let call := ConfiguratorCall.NewCompactPKIWithDocker "Server1" networks policyEngine
    w.ExternalProcessor keyPEM certPEM caCertPEM token ex remoteEnforcer killContainerError
  emit (.configurator call)
  let r := w.configure call
  return (r.t, r.m)

/-! ## triremecli/cli.go -/

/-- Go `<-c`: returns once a signal is delivered, and never returns otherwise. -/
def waitSignal (w : World) : Run Unit :=
  { trace := [.waitSignal], outcome := if w.signalDelivered then .returned () else .blocked }

/-- Modelled from the spec: the Material Loader `load(path)` of §4.1, which is
not among the sources. It "reads bytes from the given location, decodes one PEM
block, and - for key material - parses the decoded block into an
elliptic-curve key structure", failing when the source is unreadable, when no
PEM block is found, or when the key is not an elliptic-curve key. The value is
the raw PEM of the material. -/
def materialLoad (w : World) (path : String) (isKey : Bool) : Run (Except String Bytes) := do
  match ← ReadFile w path with
  | .error err => return .error err
  | .ok pem =>
    match w.pemDecode pem with
    | none => return .error "DecodeError"
    | some _ =>
      if isKey then
        match w.LoadEllipticCurveKey pem with
        | .error err => return .error err
        | .ok _ => return .ok pem
      else
        return .ok pem

/-- Modelled from the spec: `utils.LoadCompactPKI`, which `processDaemon` calls
and which is not among the sources. §4.3, `CompactPKI`: it "invokes Material
Loader for key, certificate, CA certificate, and CA key; invokes Compact Token
Minter with the CA key/cert and leaf cert; embeds the resulting token in the
strategy". The minter is `createTxtToken`; a failure is returned as the error
that `processDaemon` tests. -/
def LoadCompactPKI (w : World) (keyFile certFile caCertFile caKeyFile : String) :
    Run (Except String Secrets) := do
  match ← materialLoad w keyFile true with
  | .error err => return .error err
  | .ok keyPEM =>
    match ← materialLoad w certFile false with
    | .error err => return .error err
    | .ok certPEM =>
      match ← materialLoad w caCertFile false with
      | .error err => return .error err
      | .ok caCertPEM =>
        match ← materialLoad w caKeyFile true with
        | .error err => return .error err
        | .ok caKeyPEM =>
          match ← createTxtToken w caKeyPEM caCertPEM certPEM with
          | .error err => return .error err
          | .ok token => return .ok (Secrets.compactPKI keyPEM certPEM caCertPEM token)

/-- Go `processDaemon`: the value is the returned `err` (`none` is nil). -/
def processDaemon (w : World) (config : Configuration) : Run (Option String) := do
  let triremeOptions : List TriremeOption := []
  -- Setting up Secret Auth type based on user config.
  let triremesecret ←
    if config.AuthType = "PSK" then do
      Info "Initializing Trireme with PSK Auth. Should NOT be used in production"
      emit (.newPSKSecrets (toBytes config.PSK))
      pure (Secrets.psk (toBytes config.PSK))
    else if config.AuthType = "PKI" then do
      Info "Initializing Trireme with PKI Auth"
      match ← LoadCompactPKI w config.KeyPath config.CertPath config.CaCertPath
          config.CaKeyPath with
      | .error err => Fatal "error creating PKI Secret for Trireme" [err]
      | .ok s => pure s
    else
      Fatal "No Authentication option given" []
  emit (.optionSecret triremesecret)
  let triremeOptions := triremeOptions ++ [TriremeOption.secret triremesecret]
  -- Setting up extractor and monitor
  let monitorOptions : List MonitorOption := []
  let monitorOptions :=
    if config.Docker then
      let dockerOptions :=
        if config.Swarm then w.dockerOptions ++ [DockerMonitorOption.extractorSwarm]
        else w.dockerOptions
      monitorOptions ++ [MonitorOption.docker dockerOptions]
    else monitorOptions
  let monitorOptions :=
    if config.LinuxProcesses then monitorOptions ++ [MonitorOption.linuxProcess]
    else monitorOptions
  let triremeOptions := triremeOptions ++ [TriremeOption.monitors monitorOptions]
  -- Setting up PolicyResolver
  let policyEngine : CustomPolicyResolver :=
    { networks := config.ParsedTriremeNetworks, policyFile := some config.policyFile }
  let triremeOptions := triremeOptions ++ [TriremeOption.policyResolver policyEngine]
  emit (.new w.triremeNodeName triremeOptions)
  let t ← match w.New w.triremeNodeName triremeOptions with
    | none => Fatal "Unable to initialize trireme" []
    | some t => pure t
  -- Start all the go routines: the result of `t.Start()` is not looked at
  emit (.start t.Start)
  Debug "Trireme started"
  emit (.signalNotify ["SIGTERM", "SIGINT", "SIGQUIT"])
  Info "Everything started. Waiting for Stop signal"
  -- Waiting for a Sig
  waitSignal w
  Debug "Stop signal received"
  emit (.stop t.Stop)
  Debug "Trireme stopped"
  Info "Everything stopped. Bye Trireme-Example!"
  return none

/-! ## extractors/swarm.go -/

/-- Go `policy.NewTagStoreFromMap`: one `AppendKeyValue` per entry of the map. -/
def NewTagStoreFromMap (w : World) (m : StringMap) : TagStore :=
  (w.rangeOrder m).foldl (fun t kv => t.AppendKeyValue kv.1 kv.2) { Tags := [] }

/-- Go `SwarmExtractor`: `.error e` is the return `nil, err`. The argument is
the pointer `info *types.ContainerJSON` (`none` is nil); dereferencing it, its
`Config`, its embedded base or its `State` when nil panics. -/
def SwarmExtractor (w : World) (info : Option ContainerJSON) :
    Run (Except String PURuntime) := do
  -- Create a docker client
  emit .newDockerClient
  match w.NewClient with
  | .error err => return .error ("Error creating Docker client " ++ err)
  | .ok cli =>
    -- Get the labels from Docker. If it is a swarm service, get the labels from
    -- the service definition instead. `info.Config.Labels` reads through `info`
    -- and `info.Config`.
    let info ← deref info
    let config ← deref info.Config
    let labels ← (match config.Labels.lookup "com.docker.swarm.service.id" with
      | some serviceID => do
        emit (.serviceInspect serviceID)
        match cli.ServiceInspectWithRaw serviceID with
        | .error err => pure (.error ("Failed get swarm labels: " ++ err))
        | .ok service => pure (.ok service.Spec.Labels)
      | none => pure (.ok config.Labels) : Run (Except String StringMap))
    match labels with
    | .error err => return .error err
    | .ok dockerLabels =>
      -- Create the tags based on the docker labels. `info.Name` reads through
      -- the embedded `*ContainerJSONBase`.
      let base ← deref info.ContainerJSONBase
      let tags := NewTagStoreFromMap w [("image", config.Image), ("name", base.Name)]
      let tags := (w.rangeOrder dockerLabels).foldl (fun t kv => t.AppendKeyValue kv.1 kv.2) tags
      let ipa : StringMap := [("bridge", "0.0.0.0/0")]
      -- `info.State.Pid` reads through `info.State`
      let state ← deref base.State
      return .ok (NewPURuntime base.Name state.Pid "" tags ipa "ContainerPU")

/-! ## cnitest/cni.go -/

namespace cnitest

/-- Go `main` of `cnitest`. -/
def main (w : World) : Run Unit := do
  emit (.println "CNI Testing start")
  emit .newRPCMonitor
  let rpcmon ← match w.NewRPCMonitor with
    | .error err => Fatal "Failed to initialize RPC monitor" [err]
    | .ok m => pure m
  -- configure a LinuxServices processor for the rpc monitor
  emit .registerProcessor
  match rpcmon.RegisterProcessor with
  | some err => Fatal "Failed to initialize RPC monitor" [err]
  | none => pure ()
  emit (.signalNotify ["os.Interrupt"])
  -- Start services
  emit (.start rpcmon.Start)
  match rpcmon.Start with
  | some _ => Fatal "Failed to start Trireme" []
  | none => pure ()
  emit (.println "CNI waiting")
  -- Wait for Ctrl-C
  waitSignal w
  emit (.println "Bye!")
  emit (.stop rpcmon.Stop)
  emit (.println "CNI Testing stop")

end cnitest

/-! ## Reading a trace -/

/-- The secret of an `OptionSecret` call. -/
def Event.secret? : Event → Option Secrets
  | .optionSecret s => some s
  | _ => none

/-- The path of a file read. -/
def Event.path? : Event → Option String
  | .readFile p => some p
  | _ => none

/-- Whether the call is `trireme.New`. -/
def Event.isNew : Event → Bool
  | .new _ _ => true
  | _ => false

/-- Whether the call is `Start`. -/
def Event.isStart : Event → Bool
  | .start _ => true
  | _ => false

/-- Whether the call goes to package `configurator`. -/
def Event.isConfigurator : Event → Bool
  | .configurator _ => true
  | _ => false

/-- Whether the call is the token signer `CreateTokenFromCertificate`. -/
def Event.isCreateToken : Event → Bool
  | .createToken .. => true
  | _ => false

/-- Whether the call is `PublicKeyAdd`. -/
def Event.isPublicKeyAdd : Event → Bool
  | .publicKeyAdd _ _ => true
  | _ => false

/-- Whether the call is a log entry at fatal level. -/
def Event.isFatalLog : Event → Bool
  | .log .fatal _ _ => true
  | _ => false

/-! ## Concrete inputs -/

/-- A host with no files, a Docker daemon without services, a library that
builds and starts every instance, and an operator who sends a signal. -/
def bareWorld : World where
  readFile := fun path => .error ("open " ++ path ++ ": no such file or directory")
  pemDecode := fun _ => none
  LoadEllipticCurveKey := fun _ => .error "failed to decode PEM block"
  LoadCertificate := fun _ => .error "failed to decode PEM block"
  CreateTokenFromCertificate := fun _ _ _ _ => .error "signing failed"
  configure := fun _ =>
    { t := { id := 0 }, m := { id := 1 }, m2 := { id := 2 }, PublicKeyAdd := fun _ _ => none }
  ExternalProcessor := none
  New := fun _ _ => some { Start := none, Stop := none }
  triremeNodeName := "node1"
  dockerOptions := []
  signalDelivered := true
  NewClient := .ok { ServiceInspectWithRaw := fun _ => .error "service not found" }
  rangeOrder := fun m => m
  NewRPCMonitor := .ok { RegisterProcessor := none, Start := none, Stop := none }

/-- A configuration with the given authentication type and passphrase and the
four PEM paths of a demo directory. -/
def demoConfig (authType psk : String) : Configuration where
  AuthType := authType
  PSK := psk
  KeyPath := "certs/key.pem"
  CertPath := "certs/cert.pem"
  CaCertPath := "certs/ca.pem"
  CaKeyPath := "certs/ca-key.pem"
  Docker := true
  Swarm := false
  LinuxProcesses := true
  ParsedTriremeNetworks := ["0.0.0.0/0"]
  policyFile := "policy.json"

/-- A host with the four PEM files of a compact-PKI deployment: the leaf key
and certificate, the CA certificate and the CA key, all elliptic-curve, and a
signer that answers every request. -/
def pkiWorld : World :=
  { bareWorld with
    readFile := fun path =>
      if path = "certs/key.pem" then .ok [1]
      else if path = "certs/cert.pem" then .ok [2]
      else if path = "certs/ca.pem" then .ok [3]
      else if path = "certs/ca-key.pem" then .ok [4]
      else if path = "certs/rsa-ca.pem" then .ok [5]
      else if path = "certs/notes.txt" then .ok [0]
      else .error ("open " ++ path ++ ": no such file or directory")
    pemDecode := fun b => if b = [0] then none else some b
    LoadEllipticCurveKey := fun b =>
      if b = [1] then .ok { d := 11 }
      else if b = [4] then .ok { d := 44 }
      else .error "x509: failed to parse EC private key"
    LoadCertificate := fun b =>
      if b = [2] then .ok { PublicKey := .ecdsa 22, Raw := [2] }
      else if b = [3] then .ok { PublicKey := .ecdsa 33, Raw := [3] }
      else if b = [5] then .ok { PublicKey := .other "RSA", Raw := [5] }
      else .error "x509: malformed certificate"
    CreateTokenFromCertificate := fun pub key _ cert => .ok (pub :: key.d :: cert.Raw) }

/-- The extractor handed to the constructors in the examples. -/
def demoExtractor : DockerMetadataExtractor := { id := 7 }

/-- The host of `pkiWorld` with a public-key store that refuses every
registration. -/
def refusingStoreWorld : World :=
  { pkiWorld with
    configure := fun _ =>
      { t := { id := 0 }, m := { id := 1 }, m2 := { id := 2 },
        PublicKeyAdd := fun _ _ => some "public key store unavailable" } }

/-- The host of `bareWorld` with a library whose instances fail to start. -/
def failingStartWorld : World :=
  { bareWorld with
    New := fun _ _ => some { Start := some "monitor failed to start", Stop := none }
    NewRPCMonitor :=
      .ok { RegisterProcessor := none, Start := some "listen unix: address in use",
            Stop := none } }

/-- A swarm node: the Docker daemon knows the service "svc1", whose definition
carries the label tier=web, and a `range` over a map visits its entries last
to first. -/
def swarmWorld : World :=
  { bareWorld with
    NewClient := .ok
      { ServiceInspectWithRaw := fun serviceID =>
          if serviceID = "svc1" then .ok { Spec := { Labels := [("tier", "web")] } }
          else .error "service not found" }
    rangeOrder := List.reverse }

/-- A task container of the service "svc1", as an inspection returns it. -/
def swarmTask : ContainerJSON where
  ContainerJSONBase := some { Name := "/web.1", State := some { Pid := 4242 } }
  Config := some
    { Image := "nginx"
      Labels := [("com.docker.swarm.service.id", "svc1"), ("com.docker.swarm.task", "t1")] }

/-- A descriptor of a plain container with labels and a name but no `State`. -/
def statelessContainer : ContainerJSON where
  ContainerJSONBase := some { Name := "/db", State := none }
  Config := some { Image := "postgres", Labels := [("role", "db")] }

/-- A descriptor without `Config`. -/
def configlessContainer : ContainerJSON where
  ContainerJSONBase := some { Name := "/db", State := some { Pid := 77 } }
  Config := none

/-! ## Sequencing lemmas -/

theorem Run.pure_def {α : Type} (a : α) :
    (pure a : Run α) = { trace := [], outcome := .returned a } := rfl

@[simp] theorem Run.pure_trace {α : Type} (a : α) : (pure a : Run α).trace = [] := rfl

@[simp] theorem Run.pure_outcome {α : Type} (a : α) :
    (pure a : Run α).outcome = .returned a := rfl

@[simp] theorem Run.mk_bind_returned {α β : Type} (t : List Event) (a : α) (f : α → Run β) :
    ((⟨t, .returned a⟩ : Run α) >>= f) = ⟨t ++ (f a).trace, (f a).outcome⟩ := rfl

@[simp] theorem Run.mk_bind_fatal {α β : Type} (t : List Event) (m : String) (f : α → Run β) :
    ((⟨t, .fatal m⟩ : Run α) >>= f) = ⟨t, .fatal m⟩ := rfl

@[simp] theorem Run.mk_bind_panicked {α β : Type} (t : List Event) (m : String)
    (f : α → Run β) : ((⟨t, .panicked m⟩ : Run α) >>= f) = ⟨t, .panicked m⟩ := rfl

@[simp] theorem Run.mk_bind_blocked {α β : Type} (t : List Event) (f : α → Run β) :
    ((⟨t, .blocked⟩ : Run α) >>= f) = ⟨t, .blocked⟩ := rfl

@[simp] theorem Run.pure_bind {α β : Type} (a : α) (f : α → Run β) :
    ((pure a : Run α) >>= f) = f a := by
  show Run.bind _ _ = _
  simp [Run.bind, pure]

/-! ## C1, C2: selection of the authentication mode in `processDaemon` -/

/-- C1. With an `AuthType` that is neither "PSK" nor "PKI", `processDaemon`
logs "No Authentication option given" at fatal level and exits there: that log
entry is the whole trace, so no secret is installed as an option, no instance
is built by `trireme.New` and `Start` is never called. -/
theorem processDaemon_unknown_auth_fatal (w : World) (config : Configuration)
    (hpsk : config.AuthType ≠ "PSK") (hpki : config.AuthType ≠ "PKI") :
    processDaemon w config =
      { trace := [.log .fatal "No Authentication option given" []],
        outcome := .fatal "No Authentication option given" } ∧
    (∀ e ∈ (processDaemon w config).trace,
      e.secret? = none ∧ e.isNew = false ∧ e.isStart = false) := by
  simp [processDaemon, hpsk, hpki, Fatal, Event.secret?, Event.isNew, Event.isStart]

/-- C1 at a concrete input: `AuthType` "CompactPKI" is not a recognised mode. -/
theorem processDaemon_unknown_auth_fatal_witness :
    (demoConfig "CompactPKI" "secret").AuthType ≠ "PSK" ∧
    (demoConfig "CompactPKI" "secret").AuthType ≠ "PKI" ∧
    (processDaemon bareWorld (demoConfig "CompactPKI" "secret")).outcome =
      .fatal "No Authentication option given" :=
  ⟨by decide, by decide,
    congrArg Run.outcome (processDaemon_unknown_auth_fatal bareWorld
      (demoConfig "CompactPKI" "secret") (by decide) (by decide)).1⟩

/-- C2. With `AuthType` "PSK", `processDaemon` calls `secrets.NewPSKSecrets` on
`[]byte(config.PSK)`, the one secret it installs as an option is the
pre-shared-key secret over exactly those bytes, every `trireme.New` it reaches
receives that secret, and the run reads no file and never calls the token
signer. -/
theorem processDaemon_psk_secret (w : World) (config : Configuration)
    (hpsk : config.AuthType = "PSK") :
    Event.newPSKSecrets (toBytes config.PSK) ∈ (processDaemon w config).trace ∧
    (processDaemon w config).trace.filterMap Event.secret? =
      [Secrets.psk (toBytes config.PSK)] ∧
    (processDaemon w config).trace.filterMap Event.path? = [] ∧
    (∀ e ∈ (processDaemon w config).trace, e.isCreateToken = false) ∧
    (∀ name options, Event.new name options ∈ (processDaemon w config).trace →
      options.head? = some (TriremeOption.secret (Secrets.psk (toBytes config.PSK)))) := by
  unfold processDaemon
  cases hs : w.signalDelivered <;>
    simp [hpsk, Info, Debug, emit, Fatal, waitSignal, hs, Event.secret?, Event.path?,
      Event.isCreateToken] <;>
    split <;> simp [Event.secret?, Event.path?, Event.isCreateToken]

/-- C2 at the passphrase of the spec's scenario. -/
theorem processDaemon_psk_secret_witness :
    (demoConfig "PSK" "correct-horse-battery-staple").AuthType = "PSK" ∧
    (processDaemon bareWorld (demoConfig "PSK" "correct-horse-battery-staple")).trace.filterMap
        Event.secret? = [Secrets.psk (toBytes "correct-horse-battery-staple")] ∧
    (processDaemon bareWorld (demoConfig "PSK" "correct-horse-battery-staple")).trace.filterMap
        Event.path? = [] :=
  ⟨rfl,
    (processDaemon_psk_secret bareWorld (demoConfig "PSK" "correct-horse-battery-staple") rfl).2.1,
    (processDaemon_psk_secret bareWorld
      (demoConfig "PSK" "correct-horse-battery-staple") rfl).2.2.1⟩

/-! ## C4: a key file that is not PEM -/

/-- C4. When the key file is read and `pem.Decode` finds no block in it (the
block is nil), `TriremeWithPKI`, `TriremeWithCompactPKI` and
`HybridTriremeWithCompactPKI` all end in a fatal exit, and none of them has
called the configurator: no instance and no monitor is returned. -/
theorem constructors_fatal_on_undecodable_key (w : World)
    (keyFile certFile caCertFile caKeyFile : String)
    (networks : List String) (extractor : Option DockerMetadataExtractor)
    (remoteEnforcer killContainerError : Bool) (keyPEM : Bytes)
    (hread : w.readFile keyFile = .ok keyPEM) (hpem : w.pemDecode keyPEM = none) :
    ((∃ msg, (TriremeWithPKI w keyFile certFile caCertFile networks extractor remoteEnforcer
          killContainerError).outcome = .fatal msg) ∧
      ∀ e ∈ (TriremeWithPKI w keyFile certFile caCertFile networks extractor remoteEnforcer
          killContainerError).trace, e.isConfigurator = false) ∧
    ((∃ msg, (TriremeWithCompactPKI w keyFile certFile caCertFile caKeyFile networks extractor
          remoteEnforcer killContainerError).outcome = .fatal msg) ∧
      ∀ e ∈ (TriremeWithCompactPKI w keyFile certFile caCertFile caKeyFile networks extractor
          remoteEnforcer killContainerError).trace, e.isConfigurator = false) ∧
    ((∃ msg, (HybridTriremeWithCompactPKI w keyFile certFile caCertFile caKeyFile networks
          extractor remoteEnforcer killContainerError).outcome = .fatal msg) ∧
      ∀ e ∈ (HybridTriremeWithCompactPKI w keyFile certFile caCertFile caKeyFile networks
          extractor remoteEnforcer killContainerError).trace, e.isConfigurator = false) := by
  unfold TriremeWithPKI TriremeWithCompactPKI HybridTriremeWithCompactPKI
  cases hc : w.readFile certFile <;>
    simp [ReadFile, Fatal, hc, hread, hpem, Event.isConfigurator]

/-- C4 at a key path that holds plain text: `TriremeWithPKI` exits with
"Failed to read key PEM". -/
theorem constructors_fatal_on_undecodable_key_witness :
    pkiWorld.readFile "certs/notes.txt" = .ok [0] ∧ pkiWorld.pemDecode [0] = none ∧
    (TriremeWithPKI pkiWorld "certs/notes.txt" "certs/cert.pem" "certs/ca.pem" []
      (some demoExtractor) false true).outcome = .fatal "Failed to read key PEM" ∧
    ∃ msg, (TriremeWithCompactPKI pkiWorld "certs/notes.txt" "certs/cert.pem" "certs/ca.pem"
      "certs/ca-key.pem" [] (some demoExtractor) false true).outcome = .fatal msg :=
  ⟨rfl, by decide, by decide,
    (constructors_fatal_on_undecodable_key pkiWorld "certs/notes.txt" "certs/cert.pem"
      "certs/ca.pem" "certs/ca-key.pem" [] (some demoExtractor) false true [0]
      rfl (by decide)).2.1.1⟩

/-! ## C5, C6: `createTxtToken` -/

/-- C5. When loading the CA key as an elliptic-curve key fails, `createTxtToken`
returns that error and no token; when the CA key loads and the CA certificate
fails to load it returns that error, and when both load and the leaf
certificate fails it returns that error. In each of these cases it makes no
call at all, so the token signer is not invoked, and `TriremeWithCompactPKI`
on files with these contents ends in a fatal exit having called neither the
signer nor the configurator. -/
theorem createTxtToken_load_failure (w : World) (caKeyPEM caPEM certPEM : Bytes)
    (hfail : (∃ err, w.LoadEllipticCurveKey caKeyPEM = .error err) ∨
      (∃ err, w.LoadCertificate caPEM = .error err) ∨
      (∃ err, w.LoadCertificate certPEM = .error err)) :
    (∃ err, (createTxtToken w caKeyPEM caPEM certPEM).outcome = .returned (.error err)) ∧
    (∀ err, w.LoadEllipticCurveKey caKeyPEM = .error err →
      (createTxtToken w caKeyPEM caPEM certPEM).outcome = .returned (.error err)) ∧
    (∀ caKey err, w.LoadEllipticCurveKey caKeyPEM = .ok caKey →
      w.LoadCertificate caPEM = .error err →
      (createTxtToken w caKeyPEM caPEM certPEM).outcome = .returned (.error err)) ∧
    (∀ caKey caCert err, w.LoadEllipticCurveKey caKeyPEM = .ok caKey →
      w.LoadCertificate caPEM = .ok caCert → w.LoadCertificate certPEM = .error err →
      (createTxtToken w caKeyPEM caPEM certPEM).outcome = .returned (.error err)) ∧
    (createTxtToken w caKeyPEM caPEM certPEM).trace = [] ∧
    (∀ keyFile certFile caCertFile caKeyFile networks extractor remoteEnforcer
        killContainerError,
      w.readFile certFile = .ok certPEM → w.readFile caCertFile = .ok caPEM →
      w.readFile caKeyFile = .ok caKeyPEM →
      (∃ msg, (TriremeWithCompactPKI w keyFile certFile caCertFile caKeyFile networks
        extractor remoteEnforcer killContainerError).outcome = .fatal msg) ∧
      ∀ e ∈ (TriremeWithCompactPKI w keyFile certFile caCertFile caKeyFile networks
        extractor remoteEnforcer killContainerError).trace,
        e.isCreateToken = false ∧ e.isConfigurator = false) := by
  have hout : ∃ err, createTxtToken w caKeyPEM caPEM certPEM = ⟨[], .returned (.error err)⟩ := by
    unfold createTxtToken
    rcases hfail with ⟨err, h⟩ | ⟨err, h⟩ | ⟨err, h⟩
    · simp [h, Run.pure_def]
    · cases hk : w.LoadEllipticCurveKey caKeyPEM <;> simp [h, Run.pure_def]
    · cases hk : w.LoadEllipticCurveKey caKeyPEM <;>
        cases hc : w.LoadCertificate caPEM <;> simp [h, Run.pure_def]
  obtain ⟨err0, h0⟩ := hout
  refine ⟨⟨err0, by rw [h0]⟩, ?_, ?_, ?_, by rw [h0], ?_⟩
  · intro err h
    simp [createTxtToken, h]
  · intro caKey err hk h
    simp [createTxtToken, hk, h]
  · intro caKey caCert err hk hc h
    simp [createTxtToken, hk, hc, h]
  · intro keyFile certFile caCertFile caKeyFile networks extractor remoteEnforcer
      killContainerError hcert hca hcakey
    unfold TriremeWithCompactPKI
    cases hkey : w.readFile keyFile with
    | error e => simp [ReadFile, Fatal, hcert, hkey, Event.isCreateToken, Event.isConfigurator]
    | ok keyPEM =>
      cases hpem : w.pemDecode keyPEM <;>
        simp [ReadFile, Fatal, hcert, hkey, hpem, hca, hcakey, h0, Event.isCreateToken,
          Event.isConfigurator]

/-- C5 at a CA key path that holds the CA certificate instead of a key. -/
theorem createTxtToken_load_failure_witness :
    pkiWorld.LoadEllipticCurveKey [3] = .error "x509: failed to parse EC private key" ∧
    (createTxtToken pkiWorld [3] [3] [2]).outcome =
      .returned (.error "x509: failed to parse EC private key") ∧
    (createTxtToken pkiWorld [3] [3] [2]).trace = [] :=
  ⟨rfl,
    (createTxtToken_load_failure pkiWorld [3] [3] [2] (Or.inl ⟨_, rfl⟩)).2.1 _ rfl,
    (createTxtToken_load_failure pkiWorld [3] [3] [2] (Or.inl ⟨_, rfl⟩)).2.2.2.2.1⟩

/-- C6. When the CA key, the CA certificate and the leaf certificate all load
and the public key of the CA certificate is not an `*ecdsa.PublicKey`, the
type assertion `caCert.PublicKey.(*ecdsa.PublicKey)` panics: `createTxtToken`
returns neither an error nor a token, and the signer is not called. -/
theorem createTxtToken_panics_on_non_ecdsa_ca (w : World) (caKeyPEM caPEM certPEM : Bytes)
    (caKey : PrivateKey) (caCert clientCert : Certificate) (algorithm : String)
    (hkey : w.LoadEllipticCurveKey caKeyPEM = .ok caKey)
    (hca : w.LoadCertificate caPEM = .ok caCert)
    (hcert : w.LoadCertificate certPEM = .ok clientCert)
    (hpub : caCert.PublicKey = .other algorithm) :
    createTxtToken w caKeyPEM caPEM certPEM =
      { trace := [],
        outcome := .panicked "interface conversion: interface is not *ecdsa.PublicKey" } := by
  simp [createTxtToken, hkey, hca, hcert, hpub, goPanic]

/-- C6 at a CA certificate that carries an RSA public key: `createTxtToken`
panics, and so does `TriremeWithCompactPKI` on the files. -/
theorem createTxtToken_panics_on_non_ecdsa_ca_witness :
    pkiWorld.LoadEllipticCurveKey [4] = .ok { d := 44 } ∧
    pkiWorld.LoadCertificate [5] = .ok { PublicKey := .other "RSA", Raw := [5] } ∧
    pkiWorld.LoadCertificate [2] = .ok { PublicKey := .ecdsa 22, Raw := [2] } ∧
    (createTxtToken pkiWorld [4] [5] [2]).outcome =
      .panicked "interface conversion: interface is not *ecdsa.PublicKey" ∧
    (TriremeWithCompactPKI pkiWorld "certs/key.pem" "certs/cert.pem" "certs/rsa-ca.pem"
      "certs/ca-key.pem" [] (some demoExtractor) false true).outcome =
      .panicked "interface conversion: interface is not *ecdsa.PublicKey" :=
  ⟨rfl, rfl, rfl,
    congrArg Run.outcome (createTxtToken_panics_on_non_ecdsa_ca pkiWorld [4] [5] [2] _ _ _ "RSA"
      rfl rfl rfl rfl),
    by decide⟩


/-- Every call that `createTxtToken` makes goes to the token signer. -/
theorem createTxtToken_trace_signer (w : World) (caKeyPEM caPEM certPEM : Bytes) :
    ∀ e ∈ (createTxtToken w caKeyPEM caPEM certPEM).trace,
      ∃ pub caKey validity cert, e = Event.createToken pub caKey validity cert := by
  unfold createTxtToken
  cases hk : w.LoadEllipticCurveKey caKeyPEM with
  | error e => simp
  | ok caKey =>
    cases hc : w.LoadCertificate caPEM with
    | error e => simp
    | ok caCert =>
      cases hl : w.LoadCertificate certPEM with
      | error e => simp
      | ok clientCert =>
        cases hp : caCert.PublicKey with
        | other a => simp [hp, goPanic]
        | ecdsa pub =>
          cases ht : w.CreateTokenFromCertificate pub caKey (-1) clientCert <;>
            simp [hp, ht, emit]

/-- What `TriremeWithCompactPKI` does and returns: it never calls
`PublicKeyAdd`, and a value it returns is the instance and monitor that
`configurator.NewCompactPKIWithDocker` handed back for the contents of the
files and the minted token. -/
theorem TriremeWithCompactPKI_returns_configured (w : World)
    (keyFile certFile caCertFile caKeyFile : String) (networks : List String)
    (extractor : Option DockerMetadataExtractor) (remoteEnforcer killContainerError : Bool) :
    (TriremeWithCompactPKI w keyFile certFile caCertFile caKeyFile networks extractor
        remoteEnforcer killContainerError).trace.filter Event.isPublicKeyAdd = [] ∧
    (∀ r, (TriremeWithCompactPKI w keyFile certFile caCertFile caKeyFile networks extractor
        remoteEnforcer killContainerError).outcome = .returned r →
      ∃ keyPEM certPEM caCertPEM caKeyPEM token ex,
        w.readFile keyFile = .ok keyPEM ∧ w.readFile certFile = .ok certPEM ∧
        w.readFile caCertFile = .ok caCertPEM ∧ w.readFile caKeyFile = .ok caKeyPEM ∧
        (createTxtToken w caKeyPEM caCertPEM certPEM).outcome = .returned (.ok token) ∧
        extractor = some ex ∧
        Event.configurator (.NewCompactPKIWithDocker "Server1" networks
          (NewCustomPolicyResolver networks) w.ExternalProcessor keyPEM certPEM caCertPEM token
          ex remoteEnforcer killContainerError) ∈
          (TriremeWithCompactPKI w keyFile certFile caCertFile caKeyFile networks extractor
            remoteEnforcer killContainerError).trace ∧
        r = ((w.configure (.NewCompactPKIWithDocker "Server1" networks
            (NewCustomPolicyResolver networks) w.ExternalProcessor keyPEM certPEM caCertPEM
            token ex remoteEnforcer killContainerError)).t,
          (w.configure (.NewCompactPKIWithDocker "Server1" networks
            (NewCustomPolicyResolver networks) w.ExternalProcessor keyPEM certPEM caCertPEM
            token ex remoteEnforcer killContainerError)).m)) := by
  unfold TriremeWithCompactPKI
  have ht := createTxtToken_trace_signer w
  cases hcert : w.readFile certFile with
  | error e => simp [ReadFile, Fatal, hcert, Event.isPublicKeyAdd]
  | ok certPEM =>
    cases hkey : w.readFile keyFile with
    | error e => simp [ReadFile, Fatal, hcert, hkey, Event.isPublicKeyAdd]
    | ok keyPEM =>
      cases hpem : w.pemDecode keyPEM with
      | none => simp [ReadFile, Fatal, hcert, hkey, hpem, Event.isPublicKeyAdd]
      | some block =>
        cases hca : w.readFile caCertFile with
        | error e => simp [ReadFile, Fatal, hcert, hkey, hpem, hca, Event.isPublicKeyAdd]
        | ok caCertPEM =>
          cases hcak : w.readFile caKeyFile with
          | error e => simp [ReadFile, Fatal, hcert, hkey, hpem, hca, hcak, Event.isPublicKeyAdd]
          | ok caKeyPEM =>
            specialize ht caKeyPEM caCertPEM certPEM
            simp only [ReadFile, Run.mk_bind_returned, Run.pure_bind, Run.pure_trace,
              Run.pure_outcome, hcert, hkey, hpem, hca, hcak]
            generalize hx : createTxtToken w caKeyPEM caCertPEM certPEM = x at ht
            obtain ⟨tr, out⟩ := x
            have htr : tr.filter Event.isPublicKeyAdd = [] := by
              rw [List.filter_eq_nil_iff]
              intro e he
              obtain ⟨_, _, _, _, rfl⟩ := ht e he
              simp [Event.isPublicKeyAdd]
            cases out with
            | returned r =>
              cases r with
              | error e =>
                cases extractor <;> simp [Fatal, Event.isPublicKeyAdd, deref, goPanic, emit, htr]
              | ok token =>
                cases extractor with
                | none => simp [Fatal, Event.isPublicKeyAdd, deref, goPanic, emit, htr]
                | some ex =>
                  refine ⟨by simp [Event.isPublicKeyAdd, deref, emit, htr], ?_⟩
                  intro r hr
                  simp [deref, emit] at hr
                  subst hr
                  refine ⟨keyPEM, certPEM, caCertPEM, caKeyPEM, token, ex, rfl, rfl, rfl, rfl,
                    by rw [hx], rfl, ?_, rfl⟩
                  simp [deref, emit]
            | fatal m => simp [Event.isPublicKeyAdd, htr]
            | panicked m => simp [Event.isPublicKeyAdd, htr]
            | blocked => simp [Event.isPublicKeyAdd, htr]

/-- What `HybridTriremeWithCompactPKI` does and returns: it never calls
`PublicKeyAdd`, and a value it returns is the instance and the two monitors that
`configurator.NewHybridCompactPKIWithDocker` handed back for the contents of the
files and the minted token. -/
theorem HybridTriremeWithCompactPKI_returns_configured (w : World)
    (keyFile certFile caCertFile caKeyFile : String) (networks : List String)
    (extractor : Option DockerMetadataExtractor) (remoteEnforcer killContainerError : Bool) :
    (HybridTriremeWithCompactPKI w keyFile certFile caCertFile caKeyFile networks extractor
        remoteEnforcer killContainerError).trace.filter Event.isPublicKeyAdd = [] ∧
    (∀ r, (HybridTriremeWithCompactPKI w keyFile certFile caCertFile caKeyFile networks extractor
        remoteEnforcer killContainerError).outcome = .returned r →
      ∃ keyPEM certPEM caCertPEM caKeyPEM token ex,
        w.readFile keyFile = .ok keyPEM ∧ w.readFile certFile = .ok certPEM ∧
        w.readFile caCertFile = .ok caCertPEM ∧ w.readFile caKeyFile = .ok caKeyPEM ∧
        (createTxtToken w caKeyPEM caCertPEM certPEM).outcome = .returned (.ok token) ∧
        extractor = some ex ∧
        Event.configurator (.NewHybridCompactPKIWithDocker "Server1" networks
          (NewCustomPolicyResolver networks) w.ExternalProcessor keyPEM certPEM caCertPEM token
          ex remoteEnforcer killContainerError) ∈
          (HybridTriremeWithCompactPKI w keyFile certFile caCertFile caKeyFile networks extractor
            remoteEnforcer killContainerError).trace ∧
        r = ((w.configure (.NewHybridCompactPKIWithDocker "Server1" networks
            (NewCustomPolicyResolver networks) w.ExternalProcessor keyPEM certPEM caCertPEM
            token ex remoteEnforcer killContainerError)).t,
          (w.configure (.NewHybridCompactPKIWithDocker "Server1" networks
            (NewCustomPolicyResolver networks) w.ExternalProcessor keyPEM certPEM caCertPEM
            token ex remoteEnforcer killContainerError)).m,
          (w.configure (.NewHybridCompactPKIWithDocker "Server1" networks
            (NewCustomPolicyResolver networks) w.ExternalProcessor keyPEM certPEM caCertPEM
            token ex remoteEnforcer killContainerError)).m2)) := by
  unfold HybridTriremeWithCompactPKI
  have ht := createTxtToken_trace_signer w
  cases hcert : w.readFile certFile with
  | error e => simp [ReadFile, Fatal, hcert, Event.isPublicKeyAdd]
  | ok certPEM =>
    cases hkey : w.readFile keyFile with
    | error e => simp [ReadFile, Fatal, hcert, hkey, Event.isPublicKeyAdd]
    | ok keyPEM =>
      cases hpem : w.pemDecode keyPEM with
      | none => simp [ReadFile, Fatal, hcert, hkey, hpem, Event.isPublicKeyAdd]
      | some block =>
        cases hca : w.readFile caCertFile with
        | error e => simp [ReadFile, Fatal, hcert, hkey, hpem, hca, Event.isPublicKeyAdd]
        | ok caCertPEM =>
          cases hcak : w.readFile caKeyFile with
          | error e => simp [ReadFile, Fatal, hcert, hkey, hpem, hca, hcak, Event.isPublicKeyAdd]
          | ok caKeyPEM =>
            specialize ht caKeyPEM caCertPEM certPEM
            simp only [ReadFile, Run.mk_bind_returned, Run.pure_bind, Run.pure_trace,
              Run.pure_outcome, hcert, hkey, hpem, hca, hcak]
            generalize hx : createTxtToken w caKeyPEM caCertPEM certPEM = x at ht
            obtain ⟨tr, out⟩ := x
            have htr : tr.filter Event.isPublicKeyAdd = [] := by
              rw [List.filter_eq_nil_iff]
              intro e he
              obtain ⟨_, _, _, _, rfl⟩ := ht e he
              simp [Event.isPublicKeyAdd]
            cases out with
            | returned r =>
              cases r with
              | error e =>
                cases extractor <;> simp [Fatal, Event.isPublicKeyAdd, deref, goPanic, emit, htr]
              | ok token =>
                cases extractor with
                | none => simp [Fatal, Event.isPublicKeyAdd, deref, goPanic, emit, htr]
                | some ex =>
                  refine ⟨by simp [Event.isPublicKeyAdd, deref, emit, htr], ?_⟩
                  intro r hr
                  simp [deref, emit] at hr
                  subst hr
                  refine ⟨keyPEM, certPEM, caCertPEM, caKeyPEM, token, ex, rfl, rfl, rfl, rfl,
                    by rw [hx], rfl, ?_, rfl⟩
                  simp [deref, emit]
            | fatal m => simp [Event.isPublicKeyAdd, htr]
            | panicked m => simp [Event.isPublicKeyAdd, htr]
            | blocked => simp [Event.isPublicKeyAdd, htr]

/-! ## C7: registration of the local certificate -/

/-- C7, as stated, fails on the code: on a host whose public-key store refuses
every registration, `TriremeWithCompactPKI` and `HybridTriremeWithCompactPKI`
return their instance and monitors, and neither has called `PublicKeyAdd`. -/
theorem compactPKI_constructors_do_not_register :
    (TriremeWithCompactPKI refusingStoreWorld "certs/key.pem" "certs/cert.pem" "certs/ca.pem"
      "certs/ca-key.pem" [] (some demoExtractor) false true).outcome =
      .returned ({ id := 0 }, { id := 1 }) ∧
    (TriremeWithCompactPKI refusingStoreWorld "certs/key.pem" "certs/cert.pem" "certs/ca.pem"
      "certs/ca-key.pem" [] (some demoExtractor) false true).trace.filter
      Event.isPublicKeyAdd = [] ∧
    (HybridTriremeWithCompactPKI refusingStoreWorld "certs/key.pem" "certs/cert.pem"
      "certs/ca.pem" "certs/ca-key.pem" [] (some demoExtractor) false true).outcome =
      .returned ({ id := 0 }, { id := 1 }, { id := 2 }) ∧
    (HybridTriremeWithCompactPKI refusingStoreWorld "certs/key.pem" "certs/cert.pem"
      "certs/ca.pem" "certs/ca-key.pem" [] (some demoExtractor) false true).trace.filter
      Event.isPublicKeyAdd = [] := by
  decide

/-- C7, amended. `TriremeWithPKI` registers the local certificate: whenever it
returns, `PublicKeyAdd("Server1", certPEM)` has been called with the contents of
the certificate file, and whenever that call reports an error the constructor
ends in a fatal exit with that error. The two compact-PKI constructors never
call `PublicKeyAdd`: whenever one of them returns, it returns exactly the
instance and monitor(s) that its configurator call handed back for the contents
of the key, certificate and CA certificate files and the minted token. -/
theorem TriremeWithPKI_registers_certificate (w : World)
    (keyFile certFile caCertFile caKeyFile : String) (networks : List String)
    (extractor : Option DockerMetadataExtractor) (remoteEnforcer killContainerError : Bool) :
    (∀ r, (TriremeWithPKI w keyFile certFile caCertFile networks extractor remoteEnforcer
        killContainerError).outcome = .returned r →
      ∃ certPEM, w.readFile certFile = .ok certPEM ∧
        Event.publicKeyAdd "Server1" certPEM ∈ (TriremeWithPKI w keyFile certFile caCertFile
          networks extractor remoteEnforcer killContainerError).trace) ∧
    (∀ keyPEM certPEM caCertPEM block ex err,
      w.readFile certFile = .ok certPEM → w.readFile keyFile = .ok keyPEM →
      w.pemDecode keyPEM = some block → w.readFile caCertFile = .ok caCertPEM →
      extractor = some ex →
      (w.configure (.NewPKITriremeWithDockerMonitor "Server1" (NewCustomPolicyResolver networks)
        w.ExternalProcessor keyPEM certPEM caCertPEM ex remoteEnforcer
        killContainerError)).PublicKeyAdd "Server1" certPEM = some err →
      (TriremeWithPKI w keyFile certFile caCertFile networks extractor remoteEnforcer
        killContainerError).outcome = .fatal err ∧
      Event.publicKeyAdd "Server1" certPEM ∈ (TriremeWithPKI w keyFile certFile caCertFile
        networks extractor remoteEnforcer killContainerError).trace) ∧
    ((TriremeWithCompactPKI w keyFile certFile caCertFile caKeyFile networks extractor
        remoteEnforcer killContainerError).trace.filter Event.isPublicKeyAdd = [] ∧
    (∀ r, (TriremeWithCompactPKI w keyFile certFile caCertFile caKeyFile networks extractor
        remoteEnforcer killContainerError).outcome = .returned r →
      ∃ keyPEM certPEM caCertPEM caKeyPEM token ex,
        w.readFile keyFile = .ok keyPEM ∧ w.readFile certFile = .ok certPEM ∧
        w.readFile caCertFile = .ok caCertPEM ∧ w.readFile caKeyFile = .ok caKeyPEM ∧
        (createTxtToken w caKeyPEM caCertPEM certPEM).outcome = .returned (.ok token) ∧
        extractor = some ex ∧
        Event.configurator (.NewCompactPKIWithDocker "Server1" networks
          (NewCustomPolicyResolver networks) w.ExternalProcessor keyPEM certPEM caCertPEM token
          ex remoteEnforcer killContainerError) ∈
          (TriremeWithCompactPKI w keyFile certFile caCertFile caKeyFile networks extractor
            remoteEnforcer killContainerError).trace ∧
        r = ((w.configure (.NewCompactPKIWithDocker "Server1" networks
            (NewCustomPolicyResolver networks) w.ExternalProcessor keyPEM certPEM caCertPEM
            token ex remoteEnforcer killContainerError)).t,
          (w.configure (.NewCompactPKIWithDocker "Server1" networks
            (NewCustomPolicyResolver networks) w.ExternalProcessor keyPEM certPEM caCertPEM
            token ex remoteEnforcer killContainerError)).m))) ∧
    ((HybridTriremeWithCompactPKI w keyFile certFile caCertFile caKeyFile networks extractor
        remoteEnforcer killContainerError).trace.filter Event.isPublicKeyAdd = [] ∧
    (∀ r, (HybridTriremeWithCompactPKI w keyFile certFile caCertFile caKeyFile networks extractor
        remoteEnforcer killContainerError).outcome = .returned r →
      ∃ keyPEM certPEM caCertPEM caKeyPEM token ex,
        w.readFile keyFile = .ok keyPEM ∧ w.readFile certFile = .ok certPEM ∧
        w.readFile caCertFile = .ok caCertPEM ∧ w.readFile caKeyFile = .ok caKeyPEM ∧
        (createTxtToken w caKeyPEM caCertPEM certPEM).outcome = .returned (.ok token) ∧
        extractor = some ex ∧
        Event.configurator (.NewHybridCompactPKIWithDocker "Server1" networks
          (NewCustomPolicyResolver networks) w.ExternalProcessor keyPEM certPEM caCertPEM token
          ex remoteEnforcer killContainerError) ∈
          (HybridTriremeWithCompactPKI w keyFile certFile caCertFile caKeyFile networks extractor
            remoteEnforcer killContainerError).trace ∧
        r = ((w.configure (.NewHybridCompactPKIWithDocker "Server1" networks
            (NewCustomPolicyResolver networks) w.ExternalProcessor keyPEM certPEM caCertPEM
            token ex remoteEnforcer killContainerError)).t,
          (w.configure (.NewHybridCompactPKIWithDocker "Server1" networks
            (NewCustomPolicyResolver networks) w.ExternalProcessor keyPEM certPEM caCertPEM
            token ex remoteEnforcer killContainerError)).m,
          (w.configure (.NewHybridCompactPKIWithDocker "Server1" networks
            (NewCustomPolicyResolver networks) w.ExternalProcessor keyPEM certPEM caCertPEM
            token ex remoteEnforcer killContainerError)).m2))) := by
  refine ⟨?_, ?_, ?_, ?_⟩
  · intro r
    unfold TriremeWithPKI
    cases hcert : w.readFile certFile with
    | error e => simp [ReadFile, Fatal, hcert]
    | ok certPEM =>
      cases hkey : w.readFile keyFile with
      | error e => simp [ReadFile, Fatal, hcert, hkey]
      | ok keyPEM =>
        cases hpem : w.pemDecode keyPEM with
        | none => simp [ReadFile, Fatal, hcert, hkey, hpem]
        | some block =>
          cases hca : w.readFile caCertFile with
          | error e => simp [ReadFile, Fatal, hcert, hkey, hpem, hca]
          | ok caCertPEM =>
            cases extractor with
            | none => simp [ReadFile, Fatal, hcert, hkey, hpem, hca, deref, goPanic]
            | some ex => simp [ReadFile, Fatal, hcert, hkey, hpem, hca, deref, emit]
  · intro keyPEM certPEM caCertPEM block ex err hcert hkey hpem hca hex hadd
    subst hex
    simp [TriremeWithPKI, ReadFile, Fatal, hcert, hkey, hpem, hca, deref, emit, hadd]
  · exact TriremeWithCompactPKI_returns_configured w keyFile certFile caCertFile caKeyFile
      networks extractor remoteEnforcer killContainerError
  · exact HybridTriremeWithCompactPKI_returns_configured w keyFile certFile caCertFile
      caKeyFile networks extractor remoteEnforcer killContainerError

/-! ## C8: a failed `Start` -/

/-- C8, evaluated on the code. With `AuthType` "PSK" and an instance whose
`Start` reports the error `err`, `processDaemon` does not look at that result:
from the `Start` call on, its next calls are the log entry "Trireme started",
`signal.Notify`, the log entry "Everything started" and the wait on the channel.
No fatal entry is logged, and the run ends with a nil error once a signal
arrives (or waits forever when none does). -/
theorem processDaemon_ignores_start_failure (w : World) (config : Configuration)
    (t : Instance) (err : String) (hpsk : config.AuthType = "PSK")
    (hnew : ∀ options, w.New w.triremeNodeName options = some t)
    (hstart : t.Start = some err) :
    ((processDaemon w config).trace.dropWhile (fun e => !e.isStart)).take 5 =
      [Event.start (some err), Event.log .debug "Trireme started" [],
        Event.signalNotify ["SIGTERM", "SIGINT", "SIGQUIT"],
        Event.log .info "Everything started. Waiting for Stop signal" [],
        Event.waitSignal] ∧
    (processDaemon w config).trace.filter Event.isFatalLog = [] ∧
    (w.signalDelivered = true → (processDaemon w config).outcome = .returned none) ∧
    (w.signalDelivered = false → (processDaemon w config).outcome = .blocked) := by
  unfold processDaemon
  cases hs : w.signalDelivered <;>
    simp [hpsk, hnew, hstart, hs, Info, Debug, emit, Fatal, waitSignal, Event.isFatalLog,
      Event.isStart, List.dropWhile]

/-- C8 at a library whose instance fails to start: the daemon returns nil. -/
theorem processDaemon_ignores_start_failure_witness :
    (demoConfig "PSK" "secret").AuthType = "PSK" ∧
    (processDaemon failingStartWorld (demoConfig "PSK" "secret")).outcome = .returned none ∧
    (processDaemon failingStartWorld (demoConfig "PSK" "secret")).trace.filter
      Event.isFatalLog = [] :=
  ⟨rfl,
    (processDaemon_ignores_start_failure failingStartWorld (demoConfig "PSK" "secret")
      { Start := some "monitor failed to start", Stop := none } "monitor failed to start"
      rfl (fun _ => rfl) rfl).2.2.1 rfl,
    (processDaemon_ignores_start_failure failingStartWorld (demoConfig "PSK" "secret")
      { Start := some "monitor failed to start", Stop := none } "monitor failed to start"
      rfl (fun _ => rfl) rfl).2.1⟩

/-- The sibling path of C8: in `cnitest`, `main` checks the result of
`rpcmon.Start()`; when it reports an error the program ends in a fatal exit
and never waits for a signal. -/
theorem cnitest_main_start_failure_fatal (w : World) (rpcmon : RPCMonitor) (err : String)
    (hmon : w.NewRPCMonitor = .ok rpcmon) (hreg : rpcmon.RegisterProcessor = none)
    (hstart : rpcmon.Start = some err) :
    (cnitest.main w).outcome = .fatal "Failed to start Trireme" ∧
    Event.waitSignal ∉ (cnitest.main w).trace := by
  simp [cnitest.main, hmon, hreg, hstart, emit, Fatal]


/-! ## C3: what "PKI" selects -/

/-- C3, as stated, fails on the code: with `AuthType` "PKI" on a host holding
the four PEM files, `processDaemon` reads the CA private key file and installs
a compact-PKI secret that carries a minted token. -/
theorem processDaemon_pki_reads_ca_key_and_mints :
    (demoConfig "PKI" "").AuthType = "PKI" ∧
    Event.readFile (demoConfig "PKI" "").CaKeyPath ∈
      (processDaemon pkiWorld (demoConfig "PKI" "")).trace ∧
    (processDaemon pkiWorld (demoConfig "PKI" "")).trace.filter Event.isCreateToken =
      [Event.createToken 33 { d := 44 } (-1) { PublicKey := .ecdsa 22, Raw := [2] }] ∧
    (processDaemon pkiWorld (demoConfig "PKI" "")).trace.filterMap Event.secret? =
      [Secrets.compactPKI [1] [2] [3] [33, 44, 2]] := by
  decide

/-- The Material Loader reads its file once and always returns; a value it
returns is the content of the file. -/
theorem materialLoad_run (w : World) (path : String) (isKey : Bool) :
    ∃ r, materialLoad w path isKey = { trace := [.readFile path], outcome := .returned r } ∧
      ∀ pem, r = .ok pem → w.readFile path = .ok pem := by
  unfold materialLoad
  cases hr : w.readFile path with
  | error e => exact ⟨.error e, by simp [ReadFile, hr], by simp⟩
  | ok pem =>
    cases hd : w.pemDecode pem with
    | none => exact ⟨.error "DecodeError", by simp [ReadFile, hr, hd], by simp⟩
    | some block =>
      cases isKey with
      | false => exact ⟨.ok pem, by simp [ReadFile, hr, hd], by simp⟩
      | true =>
        cases hk : w.LoadEllipticCurveKey pem with
        | error e => exact ⟨.error e, by simp [ReadFile, hr, hd, hk], by simp⟩
        | ok k => exact ⟨.ok pem, by simp [ReadFile, hr, hd, hk], by simp⟩

/-- What `LoadCompactPKI` does: it installs no option itself, and a secret it
returns is the compact-PKI secret over the contents of the key, certificate and
CA certificate files with the token that `createTxtToken` minted from the
contents of the CA key file, which it has read. -/
theorem LoadCompactPKI_result (w : World) (keyFile certFile caCertFile caKeyFile : String) :
    (LoadCompactPKI w keyFile certFile caCertFile caKeyFile).trace.filterMap Event.secret? = [] ∧
    (∀ s, (LoadCompactPKI w keyFile certFile caCertFile caKeyFile).outcome = .returned (.ok s) →
      ∃ keyPEM certPEM caPEM caKeyPEM token,
        s = Secrets.compactPKI keyPEM certPEM caPEM token ∧
        w.readFile keyFile = .ok keyPEM ∧ w.readFile certFile = .ok certPEM ∧
        w.readFile caCertFile = .ok caPEM ∧ w.readFile caKeyFile = .ok caKeyPEM ∧
        (createTxtToken w caKeyPEM caPEM certPEM).outcome = .returned (.ok token) ∧
        Event.readFile caKeyFile ∈
          (LoadCompactPKI w keyFile certFile caCertFile caKeyFile).trace) := by
  obtain ⟨r1, h1, hr1⟩ := materialLoad_run w keyFile true
  obtain ⟨r2, h2, hr2⟩ := materialLoad_run w certFile false
  obtain ⟨r3, h3, hr3⟩ := materialLoad_run w caCertFile false
  obtain ⟨r4, h4, hr4⟩ := materialLoad_run w caKeyFile true
  unfold LoadCompactPKI
  rw [h1]
  cases r1 with
  | error e => simp [Event.secret?]
  | ok keyPEM =>
    simp only [Run.mk_bind_returned, h2]
    cases r2 with
    | error e => simp [Event.secret?]
    | ok certPEM =>
      simp only [Run.mk_bind_returned, h3]
      cases r3 with
      | error e => simp [Event.secret?]
      | ok caPEM =>
        simp only [Run.mk_bind_returned, h4]
        cases r4 with
        | error e => simp [Event.secret?]
        | ok caKeyPEM =>
          dsimp only
          have ht := createTxtToken_trace_signer w caKeyPEM caPEM certPEM
          generalize hx : createTxtToken w caKeyPEM caPEM certPEM = x at ht ⊢
          obtain ⟨tr, out⟩ := x
          have htr : tr.filterMap Event.secret? = [] := by
            rw [List.filterMap_eq_nil_iff]
            intro e he
            obtain ⟨_, _, _, _, rfl⟩ := ht e he
            rfl
          cases out with
          | returned r =>
            cases r with
            | error e => simp [Event.secret?, htr]
            | ok token =>
              simp [Event.secret?, htr]
              exact ⟨keyPEM, certPEM, caPEM, caKeyPEM, token, ⟨rfl, rfl, rfl, rfl⟩, hr1 _ rfl,
                hr2 _ rfl, hr3 _ rfl, hr4 _ rfl, by rw [hx]⟩
          | fatal m => simp [Event.secret?, htr]
          | panicked m => simp [Event.secret?, htr]
          | blocked => simp [Event.secret?, htr]

/-- C3, amended. `TriremeWithPKI` uses only the key, the certificate and the CA
certificate and mints no token: every file it reads is one of those three, it
never calls the token signer, and the configurator call it makes carries no
token. `processDaemon` with `AuthType` "PKI" selects compact PKI instead: every
secret it installs as an option is a compact-PKI secret over the contents of
the key, certificate and CA certificate files whose token `createTxtToken`
minted from the contents of the CA key file, and that file has been read. -/
theorem pki_selection (w : World) (keyFile certFile caCertFile : String)
    (networks : List String) (extractor : Option DockerMetadataExtractor)
    (remoteEnforcer killContainerError : Bool) (config : Configuration) :
    ((∀ path ∈ (TriremeWithPKI w keyFile certFile caCertFile networks extractor
          remoteEnforcer killContainerError).trace.filterMap Event.path?,
        path = certFile ∨ path = keyFile ∨ path = caCertFile) ∧
      (TriremeWithPKI w keyFile certFile caCertFile networks extractor remoteEnforcer
        killContainerError).trace.filter Event.isCreateToken = [] ∧
      (∀ call, Event.configurator call ∈ (TriremeWithPKI w keyFile certFile caCertFile
          networks extractor remoteEnforcer killContainerError).trace →
        call.token? = none)) ∧
    (config.AuthType = "PKI" →
      ∀ s ∈ (processDaemon w config).trace.filterMap Event.secret?,
        ∃ keyPEM certPEM caPEM caKeyPEM token,
          s = Secrets.compactPKI keyPEM certPEM caPEM token ∧
          w.readFile config.KeyPath = .ok keyPEM ∧ w.readFile config.CertPath = .ok certPEM ∧
          w.readFile config.CaCertPath = .ok caPEM ∧
          w.readFile config.CaKeyPath = .ok caKeyPEM ∧
          (createTxtToken w caKeyPEM caPEM certPEM).outcome = .returned (.ok token) ∧
          Event.readFile config.CaKeyPath ∈ (processDaemon w config).trace) := by
  refine ⟨?_, ?_⟩
  · unfold TriremeWithPKI
    cases hcert : w.readFile certFile with
    | error e => simp [ReadFile, Fatal, hcert, Event.path?, Event.isCreateToken]
    | ok certPEM =>
      cases hkey : w.readFile keyFile with
      | error e => simp [ReadFile, Fatal, hcert, hkey, Event.path?, Event.isCreateToken]
      | ok keyPEM =>
        cases hpem : w.pemDecode keyPEM with
        | none => simp [ReadFile, Fatal, hcert, hkey, hpem, Event.path?, Event.isCreateToken]
        | some block =>
          cases hca : w.readFile caCertFile with
          | error e =>
            simp [ReadFile, Fatal, hcert, hkey, hpem, hca, Event.path?, Event.isCreateToken]
          | ok caCertPEM =>
            cases extractor with
            | none =>
              simp [ReadFile, Fatal, hcert, hkey, hpem, hca, deref, goPanic, Event.path?,
                Event.isCreateToken]
            | some ex =>
              cases hadd : (w.configure (.NewPKITriremeWithDockerMonitor "Server1"
                (NewCustomPolicyResolver networks) w.ExternalProcessor keyPEM certPEM caCertPEM
                ex remoteEnforcer killContainerError)).PublicKeyAdd "Server1" certPEM <;>
              simp [ReadFile, Fatal, hcert, hkey, hpem, hca, deref, emit, hadd, Event.path?,
                Event.isCreateToken, ConfiguratorCall.token?]
  · intro hpki s
    have hne : ¬ config.AuthType = "PSK" := by rw [hpki]; decide
    obtain ⟨hsec, hok⟩ := LoadCompactPKI_result w config.KeyPath config.CertPath
      config.CaCertPath config.CaKeyPath
    unfold processDaemon
    simp only [if_neg hne, if_pos hpki]
    generalize LoadCompactPKI w config.KeyPath config.CertPath config.CaCertPath
      config.CaKeyPath = x at hsec hok ⊢
    obtain ⟨tr, out⟩ := x
    cases out with
    | returned r =>
      cases r with
      | error e => simp [Info, emit, Fatal, Event.secret?, hsec] at hsec ⊢
      | ok s0 =>
        obtain ⟨keyPEM, certPEM, caPEM, caKeyPEM, token, rfl, h1, h2, h3, h4, h5, h6⟩ :=
          hok s0 rfl
        simp only [] at hsec h6
        cases hs : w.signalDelivered <;>
          simp [Info, Debug, emit, Fatal, waitSignal, hs, Event.secret?, hsec] <;>
          split <;> simp [Event.secret?] <;> intro hs0 <;> subst hs0 <;>
          exact ⟨keyPEM, certPEM, caPEM, caKeyPEM, token, rfl, h1, h2, h3, h4, h5, h6⟩
    | fatal m =>
      simp [Info, emit, Event.secret?] at hsec ⊢
      intro x hx hm
      rw [hsec x hx] at hm
      cases hm
    | panicked m =>
      simp [Info, emit, Event.secret?] at hsec ⊢
      intro x hx hm
      rw [hsec x hx] at hm
      cases hm
    | blocked =>
      simp [Info, emit, Event.secret?] at hsec ⊢
      intro x hx hm
      rw [hsec x hx] at hm
      cases hm


/-! ## C10: `SwarmExtractor` -/

/-- Appending the entries of a list one by one puts them, in order, after the
tags that were there. -/
theorem foldl_AppendKeyValue (l : List (String × String)) (t : TagStore) :
    (l.foldl (fun t kv => t.AppendKeyValue kv.1 kv.2) t).Tags = t.Tags ++ l := by
  induction l generalizing t with
  | nil => simp
  | cons kv l ih =>
    rw [List.foldl_cons, ih]
    simp [TagStore.AppendKeyValue]

/-- C10, as stated, fails on the code: with the Docker client created,
`SwarmExtractor` panics on a nil descriptor and on a descriptor whose `Config`
is nil, and on a descriptor without the service id label whose `State` is nil
it panics after building the tags instead of returning a runtime. -/
theorem SwarmExtractor_panics_on_nil :
    (∃ cli, swarmWorld.NewClient = .ok cli) ∧
    SwarmExtractor swarmWorld none =
      { trace := [.newDockerClient],
        outcome := .panicked "invalid memory address or nil pointer dereference" } ∧
    SwarmExtractor swarmWorld (some configlessContainer) =
      { trace := [.newDockerClient],
        outcome := .panicked "invalid memory address or nil pointer dereference" } ∧
    (statelessContainer.Config.bind
      (fun c => c.Labels.lookup "com.docker.swarm.service.id")) = none ∧
    SwarmExtractor swarmWorld (some statelessContainer) =
      { trace := [.newDockerClient],
        outcome := .panicked "invalid memory address or nil pointer dereference" } :=
  ⟨⟨_, rfl⟩, rfl, rfl, by decide, rfl⟩

/-- C10, amended. For a non-nil descriptor with a non-nil `Config`, once the
Docker client is created (and a `range` visits every entry of a map once):
when the container labels hold "com.docker.swarm.service.id" and inspecting that
service fails, `SwarmExtractor` returns no runtime and the error "Failed get
swarm labels: ..."; and when moreover the embedded base and its `State` are
non-nil, then with the key present and the inspection successful it returns a
runtime whose tags are image, name and one key/value per label of the service
definition, and with the key absent it inspects no service and the tags are
image, name and one key/value per container label. -/
theorem SwarmExtractor_tags (w : World) (info : ContainerJSON) (config : ContainerConfig)
    (cli : DockerClient) (hcli : w.NewClient = .ok cli)
    (horder : ∀ m, (w.rangeOrder m).Perm m) (hconfig : info.Config = some config) :
    (∀ base state serviceID service,
      info.ContainerJSONBase = some base → base.State = some state →
      config.Labels.lookup "com.docker.swarm.service.id" = some serviceID →
      cli.ServiceInspectWithRaw serviceID = .ok service →
      ∃ r, SwarmExtractor w (some info) =
          { trace := [.newDockerClient, .serviceInspect serviceID],
            outcome := .returned (.ok r) } ∧
        r.tags.Tags.Perm
          (("image", config.Image) :: ("name", base.Name) :: service.Spec.Labels)) ∧
    (∀ base state,
      info.ContainerJSONBase = some base → base.State = some state →
      config.Labels.lookup "com.docker.swarm.service.id" = none →
      ∃ r, SwarmExtractor w (some info) =
          { trace := [.newDockerClient], outcome := .returned (.ok r) } ∧
        r.tags.Tags.Perm
          (("image", config.Image) :: ("name", base.Name) :: config.Labels)) ∧
    (∀ serviceID err,
      config.Labels.lookup "com.docker.swarm.service.id" = some serviceID →
      cli.ServiceInspectWithRaw serviceID = .error err →
      SwarmExtractor w (some info) =
        { trace := [.newDockerClient, .serviceInspect serviceID],
          outcome := .returned (.error ("Failed get swarm labels: " ++ err)) }) := by
  have hperm : ∀ (name : String) (labels : StringMap),
      ((w.rangeOrder labels).foldl (fun t kv => t.AppendKeyValue kv.1 kv.2)
        (NewTagStoreFromMap w [("image", config.Image), ("name", name)])).Tags.Perm
        (("image", config.Image) :: ("name", name) :: labels) := by
    intro name labels
    rw [foldl_AppendKeyValue, NewTagStoreFromMap, foldl_AppendKeyValue]
    exact List.Perm.append (horder _) (horder labels)
  refine ⟨?_, ?_, ?_⟩
  · intro base state serviceID service hbase hstate hkey hsvc
    refine ⟨NewPURuntime base.Name state.Pid ""
      ((w.rangeOrder service.Spec.Labels).foldl
        (fun (t : TagStore) (kv : String × String) => t.AppendKeyValue kv.1 kv.2)
        (NewTagStoreFromMap w [("image", config.Image), ("name", base.Name)]))
      [("bridge", "0.0.0.0/0")] "ContainerPU", ?_, hperm base.Name service.Spec.Labels⟩
    simp [SwarmExtractor, hcli, hconfig, hbase, hstate, hkey, hsvc, emit, deref, NewPURuntime,
      Run.pure_def]
  · intro base state hbase hstate hkey
    refine ⟨NewPURuntime base.Name state.Pid ""
      ((w.rangeOrder config.Labels).foldl
        (fun (t : TagStore) (kv : String × String) => t.AppendKeyValue kv.1 kv.2)
        (NewTagStoreFromMap w [("image", config.Image), ("name", base.Name)]))
      [("bridge", "0.0.0.0/0")] "ContainerPU", ?_, hperm base.Name config.Labels⟩
    simp [SwarmExtractor, hcli, hconfig, hbase, hstate, hkey, emit, deref, NewPURuntime,
      Run.pure_def]
  · intro serviceID err hkey hsvc
    simp [SwarmExtractor, hcli, hconfig, hkey, hsvc, emit, deref, Run.pure_def]

/-- C10 at a task container of a swarm service: the tags come from the service
definition, not from the container labels. -/
theorem SwarmExtractor_tags_witness :
    swarmTask.Config = some { Image := "nginx", Labels :=
      [("com.docker.swarm.service.id", "svc1"), ("com.docker.swarm.task", "t1")] } ∧
    ∃ r, SwarmExtractor swarmWorld (some swarmTask) =
        { trace := [.newDockerClient, .serviceInspect "svc1"],
          outcome := .returned (.ok r) } ∧
      r.tags.Tags.Perm [("image", "nginx"), ("name", "/web.1"), ("tier", "web")] :=
  ⟨rfl,
    (SwarmExtractor_tags swarmWorld swarmTask _ _ rfl (fun m => List.reverse_perm m) rfl).1
      { Name := "/web.1", State := some { Pid := 4242 } } { Pid := 4242 } "svc1"
      { Spec := { Labels := [("tier", "web")] } } rfl rfl (by decide) rfl⟩

end Trireme
